import Mathlib

/-!
Shallow embedding of the SDR-agent prospect-processing pipeline
(src/sdr_agent/agent.py, src/sdr_agent/core/models.py,
src/sdr_agent/integrations/email.py).

External collaborators (LLM research / scoring / drafting, the two CRM
back ends) are modelled as oracles: fallible ones return `Except String`
(a `.error e` models the Python call raising an exception whose string
form is `e`), the CRM back ends are total because their implementations
catch every exception internally and return a fallback value.
Wall-clock readings (`datetime.now()`) are passed in as explicit string
arguments, since the Python code only ever formats them into output.
-/

namespace SdrAgent

/-! ### Python truthiness helpers for `Optional[str]` values -/

/-- Python truthiness test `not x` for an `Optional[str]`: `None` and the
empty string are falsy. -/
def strFalsy : Option String → Bool
  | none => true
  | some s => s = ""

/-- Python `x or d` for an `Optional[str]` `x`: yields `d` when `x` is
`None` or empty. -/
def pyOr (o : Option String) (d : String) : String :=
  match o with
  | none => d
  | some s => if s = "" then d else s

/-- Python f-string rendering of an `Optional[str]`: `None` prints as the
literal `"None"`. -/
def optStr : Option String → String
  | none => "None"
  | some s => s

/-! ### Email-format validation (core/models.py, `validate_email_format`)

The Python code checks `re.match(r'^[a-zA-Z0-9._%+-]+@[a-zA-Z0-9.-]+\.[a-zA-Z]{2,}$', email)`.
We embed the regex as an executable decision procedure on the character
list: a nonempty run of local-part characters, a literal `@` (the local
class excludes `@`, so it is necessarily the first `@`), then a domain
part that splits as `d ++ "." ++ t` with `d` nonempty over `[a-zA-Z0-9.-]`
and `t` at least two letters reaching the end.  Python's `$` also matches
just before a single trailing newline, which we mirror by stripping one. -/

/-- Character class `[a-zA-Z0-9._%+-]` of the regex's local part. -/
def isLocalChar (c : Char) : Bool :=
  c.isAlphanum || c = '.' || c = '_' || c = '%' || c = '+' || c = '-'

/-- Character class `[a-zA-Z0-9.-]` of the regex's domain part. -/
def isDomainChar (c : Char) : Bool :=
  c.isAlphanum || c = '.' || c = '-'

/-- `[a-zA-Z]{2,}$`: at least two characters, all letters, ending the input. -/
def tldOk (t : List Char) : Bool :=
  2 ≤ t.length && t.all Char.isAlpha

/-- Search for a `.` (at any position of the given suffix) followed by a
valid top-level-domain run reaching the end. -/
def dotSuffixOk : List Char → Bool
  | [] => false
  | c :: rest => (c = '.' && tldOk rest) || dotSuffixOk rest

/-- `[a-zA-Z0-9.-]+\.[a-zA-Z]{2,}$`: nonempty, all domain characters, and a
dot at some position at least 1 with a valid letters-only tail. -/
def matchesDomainPart : List Char → Bool
  | [] => false
  | c :: rest => (c :: rest).all isDomainChar && dotSuffixOk rest

/-- Consume the local part character by character; at the first `@`
(provided at least one local character was seen) the rest must be a valid
domain part. -/
def matchesLocalThenDomain : List Char → Bool → Bool
  | [], _ => false
  | '@' :: rest, seen => seen && matchesDomainPart rest
  | c :: rest, _ => isLocalChar c && matchesLocalThenDomain rest true

/-- Strip a single trailing newline, mirroring the behaviour of `$` in a
Python (non-MULTILINE) regex. -/
def stripTrailingNewline (l : List Char) : List Char :=
  match l.getLast? with
  | some c => if c = '\n' then l.dropLast else l
  | none => l

/-- Whole-string match of the email regex used by `validate_email_format`. -/
def matchesEmailPattern (s : String) : Bool :=
  matchesLocalThenDomain (stripTrailingNewline s.toList) false

/-- `validate_email_format` from core/models.py: falsy input is returned
unchanged, otherwise the regex must match or a `ValueError` is raised
(modelled as `.error`). -/
def validate_email_format : Option String → Except String (Option String)
  | none => .ok none
  | some email =>
    if email = "" then .ok (some email)
    else if matchesEmailPattern email then .ok (some email)
    else .error ("Invalid email format: " ++ email)

/-! ### Entity model (core/models.py) -/

/-- `IdealCustomerProfile` pydantic model. -/
structure IdealCustomerProfile where
  industry : String
  company_size_min : Option Int := none
  company_size_max : Option Int := none
  job_titles : List String := []
  geography : Option String := none
  technologies : List String := []
  revenue_range : Option String := none
deriving DecidableEq

/-- `Company` pydantic model.  The researcher also mutates
`trigger_events` / `recent_news` in place, but the orchestrator only ever
reads the lists the collaborator calls return, so the record stays pure here. -/
structure Company where
  name : String
  industry : Option String := none
  size : Option Int := none
  website : Option String := none
  location : Option String := none
  description : Option String := none
  recent_news : List String := []
  trigger_events : List String := []
deriving DecidableEq

/-- `Contact` pydantic model (the email field validator lives in the
contact-finder collaborator's construction path, outside the orchestrator). -/
structure Contact where
  first_name : String
  last_name : String
  email : Option String := none
  job_title : Option String := none
  company : String
  linkedin_url : Option String := none
  phone : Option String := none
deriving DecidableEq

/-- `OutreachMessage` pydantic model (the `generated_at` wall-clock field
is never read by the code under study and is omitted). -/
structure OutreachMessage where
  contact : Contact
  subject : String
  body : String
  channel : String := "email"
deriving DecidableEq

/-- `CRMActivity` pydantic model; constructed only through
`CRMActivity.make`, which runs the `contact_email` field validator. -/
structure CRMActivity where
  contact_email : String
  activity_type : String
  subject : String
  description : String
  status : String := "completed"
deriving DecidableEq

/-- Pydantic construction of a `CRMActivity`: the field validator applies
`validate_email_format` to `contact_email` and replaces a falsy result by
`""` (`validate_email_format(v) or ""`); a validation failure raises. -/
def CRMActivity.make (contact_email activity_type subject description status : String) :
    Except String CRMActivity :=
  match validate_email_format (some contact_email) with
  | .error e => .error e
  | .ok v =>
    .ok { contact_email := v.getD "", activity_type := activity_type,
          subject := subject, description := description, status := status }

/-! ### Email integration (integrations/email.py) -/

/-- State of `EmailIntegration`: whether `connect` produced a SendGrid
client (`sg`), and an oracle for the outcome of an actual API send (true
exactly when the request succeeds with a 2xx status and no exception). -/
structure EmailState where
  sg : Bool
  sendOutcome : OutreachMessage → Bool

/-- `EmailIntegration.send_email`: demo mode (no client) returns `True`
without looking at the message; with a client, a contact with a falsy
email address fails closed; otherwise the API outcome decides. -/
def send_email (st : EmailState) (message : OutreachMessage) : Bool :=
  if !st.sg then true
  else if strFalsy message.contact.email then false
  else st.sendOutcome message

/-- Result dictionary of `send_bulk_emails`. -/
structure BulkEmailResults where
  sent : Nat
  failed : Nat
  errors : List String
deriving DecidableEq

/-- Loop body accumulation of `EmailIntegration.send_bulk_emails`. -/
def send_bulk_emails_from (st : EmailState) (acc : BulkEmailResults) :
    List OutreachMessage → BulkEmailResults
  | [] => acc
  | message :: rest =>
    if send_email st message then
      send_bulk_emails_from st { acc with sent := acc.sent + 1 } rest
    else
      send_bulk_emails_from st
        { acc with
          failed := acc.failed + 1
          errors := acc.errors ++ ["Failed to send to " ++ optStr message.contact.email] } rest

/-- `EmailIntegration.send_bulk_emails`: every message is attempted in
order and counted as sent or failed; one failure never aborts the loop. -/
def send_bulk_emails (st : EmailState) (messages : List OutreachMessage) : BulkEmailResults :=
  send_bulk_emails_from st { sent := 0, failed := 0, errors := [] } messages

/-- `EmailIntegration.create_activity_log`: a falsy contact email is
replaced by the literal `"unknown"` before the `CRMActivity` is
constructed (and hence validated). -/
def create_activity_log (message : OutreachMessage) (status : String) :
    Except String CRMActivity :=
  CRMActivity.make (pyOr message.contact.email "unknown") "email_sent" message.subject
    ("Sent cold email to " ++ message.contact.first_name ++ " " ++ message.contact.last_name ++
      "\n\nSubject: " ++ message.subject ++ "\n\nBody:\n" ++ message.body)
    status

/-! ### Orchestrator state (agent.py) -/

/-- The `company_info` dictionary the CRM loop builds from the researched
company. -/
structure CompanyInfo where
  industry : Option String
  website : Option String
  description : Option String
deriving DecidableEq

/-- View of the company used by the CRM loop (agent.py lines 179–183). -/
def companyInfoOf (company : Company) : CompanyInfo :=
  { industry := company.industry, website := company.website,
    description := company.description }

/-- Parsed shape of the fit-scorer's JSON reply; both keys may be absent
(`icp_analysis.get(...)` supplies the defaults). -/
structure IcpAnalysis where
  fit_score : Option Int := none
  reasoning : Option String := none
deriving DecidableEq

/-- One entry of the demo-mode `results['messages']` preview list. -/
structure MessagePreview where
  toName : String
  email : String
  subject : String
  body : String
deriving DecidableEq

/-- Demo-mode preview of a drafted message (agent.py lines 165–173); the
`toName` field is the dictionary's `'to'` key (`to` is reserved in Lean). -/
def messagePreview (msg : OutreachMessage) : MessagePreview :=
  { toName := msg.contact.first_name ++ " " ++ msg.contact.last_name
    email := pyOr msg.contact.email "N/A"
    subject := msg.subject
    body := msg.body }

/-- The `results` dictionary of `process_prospect`.  Keys that the Python
code only adds along some paths are `Option`s (or, for `skipped`, a `Bool`
that is `false` while the key is absent, matching every truthiness read of
the dictionary). -/
structure ProcessingResult where
  company : String
  timestamp : String
  steps_completed : List String
  contacts_identified : Nat
  messages_generated : Nat
  emails_sent : Nat
  crm_logged : Bool
  errors : List String
  icp_fit_score : Option Int := none
  icp_reasoning : Option String := none
  skipped : Bool := false
  skip_reason : Option String := none
  trigger_events : Option (List String) := none
  company_news : Option (List String) := none
  email_errors : Option (List String) := none
  messages : Option (List MessagePreview) := none
deriving DecidableEq

/-- The dictionary initializer at agent.py lines 87–96. -/
def initResults (company_name now : String) : ProcessingResult :=
  { company := company_name
    timestamp := now
    steps_completed := []
    contacts_identified := 0
    messages_generated := 0
    emails_sent := 0
    crm_logged := false
    errors := [] }

/-- The collaborators an `SDRAgent` instance holds.  A `.error e` result
models the Python call raising an exception with string form `e`; the two
CRM back ends are total because `SalesforceIntegration` /
`HubSpotIntegration` catch all exceptions internally and fall back to
`None` / `False`. -/
structure Collaborators where
  research_company : String → Option String → Except String Company
  analyze_icp_fit : Company → IdealCustomerProfile → Except String IcpAnalysis
  identify_trigger_events : Company → Except String (List String)
  gather_company_news : Company → Except String (List String)
  identify_decision_makers : Company → List String → Except String (List Contact)
  generate_cold_email : Contact → Company → String → List String → Except String OutreachMessage
  emailState : EmailState
  sf_create_lead : Contact → CompanyInfo → Option String
  sf_log_activity : CRMActivity → Option String → Bool
  hs_create_contact : Contact → CompanyInfo → Option String
  hs_log_activity : CRMActivity → Option String → Bool
  crm_type : String

/-- Run `f` over a list, stopping at (and propagating) the first raised
exception, exactly like a Python `for` loop accumulating results. -/
def mapExcept (f : α → Except String β) : List α → Except String (List β)
  | [] => .ok []
  | a :: rest =>
    match f a with
    | .error e => .error e
    | .ok b =>
      match mapExcept f rest with
      | .error e => .error e
      | .ok bs => .ok (b :: bs)

/-- Inner CRM loop over the drafted messages for one contact (agent.py
lines 189–192 / 198–201): every message whose contact email equals this
contact's email gets an activity log created (which can raise a
validation error) and recorded via the CRM's `log_activity`. -/
def logMessages (logAct : CRMActivity → Option String → Bool) (recordId : Option String)
    (contact : Contact) : List OutreachMessage → Except String Unit
  | [] => .ok ()
  | message :: rest =>
    if message.contact.email = contact.email then
      match create_activity_log message "sent" with
      | .error e => .error e
      | .ok activity =>
        let _ := logAct activity recordId
        logMessages logAct recordId contact rest
    else
      logMessages logAct recordId contact rest

/-- Outer CRM loop over the contacts (agent.py lines 177–201), branching
on the configured CRM back end. -/
def crmLoop (C : Collaborators) (company_info : CompanyInfo)
    (messages : List OutreachMessage) : List Contact → Except String Unit
  | [] => .ok ()
  | contact :: rest =>
    let step : Except String Unit :=
      if C.crm_type = "salesforce" then
        let lead_id := C.sf_create_lead contact company_info
        logMessages C.sf_log_activity lead_id contact messages
      else if C.crm_type = "hubspot" then
        let contact_id := C.hs_create_contact contact company_info
        logMessages C.hs_log_activity contact_id contact messages
      else .ok ()
    match step with
    | .error e => .error e
    | .ok _ => crmLoop C company_info messages rest

/-- Steps 7 and 8 of `process_prospect` (agent.py lines 156–204): dispatch
(or stage previews) for the drafted messages, then log activities in the
CRM; a raised CRM error is caught by the outer handler, which appends it
to the error list and returns the partial result. -/
def step7and8 (C : Collaborators) (send_email_flag : Bool) (company : Company)
    (contacts : List Contact) (messages : List OutreachMessage)
    (results : ProcessingResult) : ProcessingResult :=
  let results :=
    if send_email_flag then
      let email_results := send_bulk_emails C.emailState messages
      { results with
        emails_sent := email_results.sent
        email_errors := some email_results.errors
        steps_completed := results.steps_completed ++ ["send_emails"] }
    else
      { results with messages := some (messages.map messagePreview) }
  match crmLoop C (companyInfoOf company) messages contacts with
  | .error e => { results with errors := results.errors ++ [e] }
  | .ok _ =>
    { results with
      crm_logged := true
      steps_completed := results.steps_completed ++ ["log_crm"] }

/-- `SDRAgent.process_prospect` (agent.py lines 64–212).  `now` stands for
the `datetime.now().isoformat()` reading taken at entry.  Each collaborator
`.error` models that call raising; the outer `try/except` appends the
error text to `results['errors']` and returns the partial result. -/
def process_prospect (C : Collaborators) (now : String) (company_name : String)
    (icp : IdealCustomerProfile) (value_proposition : String)
    (company_website : Option String) (send_email_flag : Bool) : ProcessingResult :=
  let results := initResults company_name now
  match C.research_company company_name company_website with
  | .error e => { results with errors := results.errors ++ [e] }
  | .ok company =>
    let results :=
      { results with steps_completed := results.steps_completed ++ ["research_company"] }
    match C.analyze_icp_fit company icp with
    | .error e => { results with errors := results.errors ++ [e] }
    | .ok icp_analysis =>
      let results :=
        { results with
          icp_fit_score := some (icp_analysis.fit_score.getD 0)
          icp_reasoning := some (icp_analysis.reasoning.getD "")
          steps_completed := results.steps_completed ++ ["analyze_icp"] }
      if icp_analysis.fit_score.getD 0 < 50 then
        { results with skipped := true, skip_reason := some "Low ICP fit score" }
      else
        match C.identify_trigger_events company with
        | .error e => { results with errors := results.errors ++ [e] }
        | .ok trigger_events =>
          let results :=
            { results with
              trigger_events := some trigger_events
              steps_completed := results.steps_completed ++ ["identify_triggers"] }
          match C.gather_company_news company with
          | .error e => { results with errors := results.errors ++ [e] }
          | .ok news =>
            let results :=
              { results with
                company_news := some news
                steps_completed := results.steps_completed ++ ["gather_news"] }
            match C.identify_decision_makers company icp.job_titles with
            | .error e => { results with errors := results.errors ++ [e] }
            | .ok contacts =>
              let results :=
                { results with
                  contacts_identified := contacts.length
                  steps_completed := results.steps_completed ++ ["identify_contacts"] }
              if contacts.isEmpty then
                { results with errors := results.errors ++ ["No contacts identified"] }
              else
                match mapExcept (fun contact =>
                    C.generate_cold_email contact company value_proposition
                      (trigger_events.take 2)) contacts with
                | .error e => { results with errors := results.errors ++ [e] }
                | .ok messages =>
                  let results :=
                    { results with
                      messages_generated := messages.length
                      steps_completed := results.steps_completed ++ ["generate_messages"] }
                  step7and8 C send_email_flag company contacts messages results

/-- One entry of the prospect list handed to `process_prospect_list`
(`prospect.get('name')` / `prospect.get('website')`). -/
structure ProspectEntry where
  name : Option String := none
  website : Option String := none
deriving DecidableEq

/-- `SDRAgent.process_prospect_list` (agent.py lines 214–256): entries with
a falsy name are skipped outright; every other entry is processed
sequentially and contributes exactly one result, in order. -/
def process_prospect_list (C : Collaborators) (now : String)
    (icp : IdealCustomerProfile) (value_proposition : String) (send_email_flag : Bool) :
    List ProspectEntry → List ProcessingResult
  | [] => []
  | prospect :: rest =>
    if strFalsy prospect.name then
      process_prospect_list C now icp value_proposition send_email_flag rest
    else
      process_prospect C now (prospect.name.getD "") icp value_proposition
          prospect.website send_email_flag
        :: process_prospect_list C now icp value_proposition send_email_flag rest

/-! ### Campaign report (agent.py lines 258–309) -/

/-- `len([r for r in results if not r.get('skipped')])`. -/
def processedCount (results : List ProcessingResult) : Nat :=
  (results.filter (fun r => !r.skipped)).length

/-- `len([r for r in results if r.get('skipped')])`. -/
def skippedCount (results : List ProcessingResult) : Nat :=
  (results.filter (fun r => r.skipped)).length

/-- `sum(r.get('contacts_identified', 0) for r in results)`. -/
def totalContacts (results : List ProcessingResult) : Nat :=
  (results.map (fun r => r.contacts_identified)).sum

/-- `sum(r.get('messages_generated', 0) for r in results)`. -/
def totalMessages (results : List ProcessingResult) : Nat :=
  (results.map (fun r => r.messages_generated)).sum

/-- `sum(r.get('emails_sent', 0) for r in results)`. -/
def totalSent (results : List ProcessingResult) : Nat :=
  (results.map (fun r => r.emails_sent)).sum

/-- Rendering of `result.get('icp_fit_score', 'N/A')` inside an f-string. -/
def fitScoreStr (r : ProcessingResult) : String :=
  match r.icp_fit_score with
  | none => "N/A"
  | some k => toString k

/-- The per-prospect detail block appended for each result (agent.py lines
293–307). -/
def reportDetailBlock (r : ProcessingResult) : String :=
  "\n" ++ r.company ++ ":\n" ++
    "  ICP Fit Score: " ++ fitScoreStr r ++ "\n" ++
    "  Contacts: " ++ toString r.contacts_identified ++ "\n" ++
    "  Messages: " ++ toString r.messages_generated ++ "\n" ++
    (if r.skipped then
      "  Status: SKIPPED - " ++ (r.skip_reason.getD "Unknown") ++ "\n"
    else
      "  Status: PROCESSED\n")

/-- The summary header f-string (agent.py lines 275–291); `now` stands for
`datetime.now().strftime('%Y-%m-%d %H:%M:%S')`. -/
def reportSummary (now : String) (results : List ProcessingResult) : String :=
  "\nSDR Campaign Report\n==================\nGenerated: " ++ now ++
    "\n\nSummary:\n--------\nTotal Prospects: " ++ toString results.length ++
    "\nProcessed: " ++ toString (processedCount results) ++
    "\nSkipped (Low ICP Fit): " ++ toString (skippedCount results) ++
    "\nTotal Contacts Identified: " ++ toString (totalContacts results) ++
    "\nTotal Messages Generated: " ++ toString (totalMessages results) ++
    "\nTotal Emails Sent: " ++ toString (totalSent results) ++
    "\n\nProspect Details:\n----------------\n"

/-- `SDRAgent.generate_campaign_report`: the summary header followed by one
detail block per result, accumulated left to right. -/
def generate_campaign_report (now : String) (results : List ProcessingResult) : String :=
  results.foldl (fun report r => report ++ reportDetailBlock r) (reportSummary now results)

/-- The constant text of the report up to (and including) the
`Generated: ` label — everything before the wall-clock reading. -/
def reportGeneratedHead : String :=
  "\nSDR Campaign Report\n==================\nGenerated: "

/-- The text of the report after the wall-clock reading; a function of the
result list alone. -/
def reportAfterTimestamp (results : List ProcessingResult) : String :=
  "\n\nSummary:\n--------\nTotal Prospects: " ++ toString results.length ++
    "\nProcessed: " ++ toString (processedCount results) ++
    "\nSkipped (Low ICP Fit): " ++ toString (skippedCount results) ++
    "\nTotal Contacts Identified: " ++ toString (totalContacts results) ++
    "\nTotal Messages Generated: " ++ toString (totalMessages results) ++
    "\nTotal Emails Sent: " ++ toString (totalSent results) ++
    "\n\nProspect Details:\n----------------\n" ++
    results.foldl (fun report r => report ++ reportDetailBlock r) ""

/-- A contact email that passes the email-format validator (the invariant
pydantic guarantees for every constructed `Contact` with a present,
nonempty email). -/
def contactEmailOk (c : Contact) : Prop :=
  ∃ s, c.email = some s ∧ s ≠ "" ∧ matchesEmailPattern s = true

/-! ### Concrete fixtures (used by the witness theorems) -/

/-- Email integration state of a demo-mode agent: `connect` found no API
key, so no SendGrid client exists. -/
def demoEmailState : EmailState := { sg := false, sendOutcome := fun _ => false }

/-- Email integration state with a live SendGrid client whose API accepts
every request. -/
def liveEmailState : EmailState := { sg := true, sendOutcome := fun _ => true }

/-- A contact with a well-formed email address. -/
def fixtureContact : Contact :=
  { first_name := "Jane", last_name := "Doe", email := some "jane.doe@example.com",
    job_title := some "CTO", company := "Acme" }

/-- A second contact with a well-formed email address. -/
def fixtureContact2 : Contact :=
  { first_name := "Ken", last_name := "Adams", email := some "ken@acme.io",
    job_title := some "VP Engineering", company := "Acme" }

/-- A contact the finder returned without any email address. -/
def noEmailContact : Contact :=
  { first_name := "Sam", last_name := "Lee", email := none,
    job_title := some "CTO", company := "Acme" }

/-- The ICP used by the concrete scenarios. -/
def fixtureIcp : IdealCustomerProfile :=
  { industry := "Technology", job_titles := ["CTO"] }

/-- Deterministic drafted message for a given contact. -/
def fixtureMessage (c : Contact) : OutreachMessage :=
  { contact := c, subject := "Quick question", body := "Hi there" }

/-- A drafted message whose contact has no email address. -/
def noEmailMessage : OutreachMessage := fixtureMessage noEmailContact

/-- Deterministic collaborator bundle: research echoes the name, the
scorer always returns `score`, the finder always returns `contacts`, and
drafting wraps each contact in `fixtureMessage`. -/
def mkCollab (score : Int) (contacts : List Contact) : Collaborators :=
  { research_company := fun name w => .ok { name := name, website := w }
    analyze_icp_fit := fun _ _ => .ok { fit_score := some score, reasoning := some "rationale" }
    identify_trigger_events := fun _ => .ok ["Raised Series B", "Opened Berlin office", "New CTO"]
    gather_company_news := fun _ => .ok ["Acme in the news"]
    identify_decision_makers := fun _ _ => .ok contacts
    generate_cold_email := fun c _ _ _ => .ok (fixtureMessage c)
    emailState := demoEmailState
    sf_create_lead := fun _ _ => some "demo_lead_1"
    sf_log_activity := fun _ _ => true
    hs_create_contact := fun _ _ => some "demo_contact_1"
    hs_log_activity := fun _ _ => true
    crm_type := "salesforce" }

/-- Collaborator bundle whose researcher raises. -/
def failingResearchCollab : Collaborators :=
  { mkCollab 90 [fixtureContact] with research_company := fun _ _ => .error "boom" }

/-! ### Helper lemmas -/

theorem mapExcept_ok_length (f : α → Except String β) :
    ∀ (l : List α) (bs : List β), mapExcept f l = .ok bs → bs.length = l.length := by
  intro l
  induction l with
  | nil =>
    intro bs h
    simp only [mapExcept] at h
    injection h with h
    simp [← h]
  | cons a rest ih =>
    intro bs h
    simp only [mapExcept] at h
    cases hf : f a with
    | error e => rw [hf] at h; cases h
    | ok b =>
      rw [hf] at h
      cases hrest : mapExcept f rest with
      | error e => rw [hrest] at h; cases h
      | ok bs2 =>
        rw [hrest] at h
        injection h with h
        simp [← h, ih bs2 hrest]

theorem step7and8_messages_generated (C : Collaborators) (flag : Bool) (company : Company)
    (contacts : List Contact) (messages : List OutreachMessage) (r : ProcessingResult) :
    (step7and8 C flag company contacts messages r).messages_generated = r.messages_generated := by
  unfold step7and8
  cases h : crmLoop C (companyInfoOf company) messages contacts <;> cases flag <;> simp [h]

theorem step7and8_contacts_identified (C : Collaborators) (flag : Bool) (company : Company)
    (contacts : List Contact) (messages : List OutreachMessage) (r : ProcessingResult) :
    (step7and8 C flag company contacts messages r).contacts_identified
      = r.contacts_identified := by
  unfold step7and8
  cases h : crmLoop C (companyInfoOf company) messages contacts <;> cases flag <;> simp [h]

theorem step7and8_false_emails_sent (C : Collaborators) (company : Company)
    (contacts : List Contact) (messages : List OutreachMessage) (r : ProcessingResult) :
    (step7and8 C false company contacts messages r).emails_sent = r.emails_sent := by
  unfold step7and8
  cases h : crmLoop C (companyInfoOf company) messages contacts <;> simp [h]

theorem step7and8_false_messages (C : Collaborators) (company : Company)
    (contacts : List Contact) (messages : List OutreachMessage) (r : ProcessingResult) :
    (step7and8 C false company contacts messages r).messages
      = some (messages.map messagePreview) := by
  unfold step7and8
  cases h : crmLoop C (companyInfoOf company) messages contacts <;> simp [h]

theorem step7and8_false_email_errors (C : Collaborators) (company : Company)
    (contacts : List Contact) (messages : List OutreachMessage) (r : ProcessingResult) :
    (step7and8 C false company contacts messages r).email_errors = r.email_errors := by
  unfold step7and8
  cases h : crmLoop C (companyInfoOf company) messages contacts <;> simp [h]

theorem step7and8_false_steps (C : Collaborators) (company : Company)
    (contacts : List Contact) (messages : List OutreachMessage) (r : ProcessingResult) :
    (step7and8 C false company contacts messages r).steps_completed = r.steps_completed
      ∨ (step7and8 C false company contacts messages r).steps_completed
          = r.steps_completed ++ ["log_crm"] := by
  unfold step7and8
  cases h : crmLoop C (companyInfoOf company) messages contacts <;> simp [h]

theorem step7and8_loop_error (C : Collaborators) (flag : Bool) (company : Company)
    (contacts : List Contact) (messages : List OutreachMessage) (r : ProcessingResult)
    (e : String) (h : crmLoop C (companyInfoOf company) messages contacts = .error e) :
    (step7and8 C flag company contacts messages r).crm_logged = r.crm_logged
      ∧ (step7and8 C flag company contacts messages r).errors = r.errors ++ [e]
      ∧ (step7and8 C flag company contacts messages r).steps_completed
          = r.steps_completed ++ (if flag then ["send_emails"] else []) := by
  unfold step7and8
  cases flag <;> simp [h]

theorem send_bulk_from_counts (st : EmailState) :
    ∀ (l : List OutreachMessage) (acc : BulkEmailResults),
      (send_bulk_emails_from st acc l).sent + (send_bulk_emails_from st acc l).failed
        = acc.sent + acc.failed + l.length := by
  intro l
  induction l with
  | nil => intro acc; simp [send_bulk_emails_from]
  | cons m rest ih =>
    intro acc
    unfold send_bulk_emails_from
    cases h : send_email st m <;> simp [ih] <;> omega

theorem send_bulk_from_sent (st : EmailState) :
    ∀ (l : List OutreachMessage) (acc : BulkEmailResults),
      (send_bulk_emails_from st acc l).sent
        = acc.sent + (l.filter (fun m => send_email st m)).length := by
  intro l
  induction l with
  | nil => intro acc; simp [send_bulk_emails_from]
  | cons m rest ih =>
    intro acc
    unfold send_bulk_emails_from
    cases h : send_email st m
    all_goals simp [h, List.filter, ih]
    all_goals omega

theorem create_activity_log_falsy (msg : OutreachMessage) (status : String)
    (h : strFalsy msg.contact.email = true) :
    create_activity_log msg status = .error "Invalid email format: unknown" := by
  have hpy : pyOr msg.contact.email "unknown" = "unknown" := by
    cases he : msg.contact.email with
    | none => rfl
    | some s =>
      rw [he] at h
      simp only [strFalsy, decide_eq_true_eq] at h
      simp [pyOr, h]
  unfold create_activity_log CRMActivity.make
  rw [hpy]
  rfl

theorem create_activity_log_ok (msg : OutreachMessage) (status : String) (s : String)
    (he : msg.contact.email = some s) (hne : s ≠ "") (hm : matchesEmailPattern s = true) :
    ∃ act, create_activity_log msg status = .ok act := by
  unfold create_activity_log CRMActivity.make validate_email_format pyOr
  rw [he]
  simp [hne, hm]

theorem logMessages_error_of_falsy (logAct : CRMActivity → Option String → Bool)
    (recordId : Option String) (contact : Contact)
    (hc : strFalsy contact.email = true) :
    ∀ messages : List OutreachMessage,
      (∃ m ∈ messages, m.contact.email = contact.email) →
      logMessages logAct recordId contact messages = .error "Invalid email format: unknown" := by
  intro messages
  induction messages with
  | nil => rintro ⟨m, hm, _⟩; cases hm
  | cons msg rest ih =>
    rintro ⟨m, hm, heq⟩
    unfold logMessages
    by_cases hmatch : msg.contact.email = contact.email
    · have hf : strFalsy msg.contact.email = true := by rw [hmatch]; exact hc
      rw [if_pos hmatch, create_activity_log_falsy msg "sent" hf]
    · rw [if_neg hmatch]
      apply ih
      rcases List.mem_cons.mp hm with rfl | hmem
      · exact absurd heq hmatch
      · exact ⟨m, hmem, heq⟩

theorem logMessages_ok_of_emailOk (logAct : CRMActivity → Option String → Bool)
    (recordId : Option String) (contact : Contact) (hc : contactEmailOk contact) :
    ∀ messages : List OutreachMessage,
      logMessages logAct recordId contact messages = .ok () := by
  intro messages
  induction messages with
  | nil => rfl
  | cons msg rest ih =>
    unfold logMessages
    by_cases hmatch : msg.contact.email = contact.email
    · rw [if_pos hmatch]
      obtain ⟨s, hs, hne, hm⟩ := hc
      obtain ⟨act, hact⟩ := create_activity_log_ok msg "sent" s (by rw [hmatch, hs]) hne hm
      rw [hact]
      simpa using ih
    · rw [if_neg hmatch]; exact ih

theorem crmLoop_error_of_bad_contact (C : Collaborators) (company_info : CompanyInfo)
    (messages : List OutreachMessage)
    (hcrm : C.crm_type = "salesforce" ∨ C.crm_type = "hubspot") :
    ∀ contacts : List Contact,
      (∀ c ∈ contacts, strFalsy c.email = true ∨ contactEmailOk c) →
      (∀ c ∈ contacts, strFalsy c.email = true →
        ∃ m ∈ messages, m.contact.email = c.email) →
      (∃ c ∈ contacts, strFalsy c.email = true) →
      crmLoop C company_info messages contacts = .error "Invalid email format: unknown" := by
  intro contacts
  induction contacts with
  | nil => rintro _ _ ⟨c, hc, _⟩; cases hc
  | cons contact rest ih =>
    rintro hall hmatch ⟨c, hcmem, hcf⟩
    unfold crmLoop
    by_cases hf : strFalsy contact.email = true
    · have hmsg := hmatch contact (List.mem_cons_self _ _) hf
      have hlog : ∀ (logAct : CRMActivity → Option String → Bool) (recordId : Option String),
          logMessages logAct recordId contact messages
            = .error "Invalid email format: unknown" :=
        fun logAct recordId => logMessages_error_of_falsy logAct recordId contact hf messages hmsg
      rcases hcrm with h | h <;> simp [h, hlog]
    · have hok : contactEmailOk contact := by
        rcases hall contact (List.mem_cons_self _ _) with h | h
        · exact absurd h hf
        · exact h
      have hlog : ∀ (logAct : CRMActivity → Option String → Bool) (recordId : Option String),
          logMessages logAct recordId contact messages = .ok () :=
        fun logAct recordId => logMessages_ok_of_emailOk logAct recordId contact hok messages
      have hrest : ∃ c ∈ rest, strFalsy c.email = true := by
        rcases List.mem_cons.mp hcmem with rfl | hcm
        · exact absurd hcf hf
        · exact ⟨c, hcm, hcf⟩
      have hih := ih (fun c hc => hall c (List.mem_cons_of_mem _ hc))
        (fun c hc => hmatch c (List.mem_cons_of_mem _ hc)) hrest
      rcases hcrm with h | h <;> simp [h, hlog, hih]

theorem foldl_append_eq (f : α → String) :
    ∀ (l : List α) (s : String),
      l.foldl (fun acc r => acc ++ f r) s = s ++ l.foldl (fun acc r => acc ++ f r) "" := by
  intro l
  induction l with
  | nil => intro s; simp
  | cons r rest ih =>
    intro s
    simp only [List.foldl_cons]
    rw [ih (s ++ f r), ih ("" ++ f r), String.append_assoc]
    congr 1

theorem process_prospect_after_drafting
    (C : Collaborators) (now company_name : String) (icp : IdealCustomerProfile)
    (vp : String) (website : Option String) (flag : Bool)
    (company : Company) (a : IcpAnalysis) (s : Int) (trigger_events news : List String)
    (contacts : List Contact) (messages : List OutreachMessage)
    (hres : C.research_company company_name website = .ok company)
    (hicp : C.analyze_icp_fit company icp = .ok a)
    (hscore : a.fit_score = some s) (hge : 50 ≤ s)
    (htr : C.identify_trigger_events company = .ok trigger_events)
    (hnews : C.gather_company_news company = .ok news)
    (hcontacts : C.identify_decision_makers company icp.job_titles = .ok contacts)
    (hne : contacts ≠ [])
    (hmsgs : mapExcept (fun contact => C.generate_cold_email contact company vp
        (trigger_events.take 2)) contacts = .ok messages) :
    process_prospect C now company_name icp vp website flag =
      step7and8 C flag company contacts messages
        { initResults company_name now with
          steps_completed := ["research_company", "analyze_icp", "identify_triggers",
            "gather_news", "identify_contacts", "generate_messages"]
          icp_fit_score := some s
          icp_reasoning := some (a.reasoning.getD "")
          trigger_events := some trigger_events
          company_news := some news
          contacts_identified := contacts.length
          messages_generated := messages.length } := by
  have hnotlt : ¬ (s < 50) := by omega
  have hne2 : contacts.isEmpty = false := by
    cases contacts with
    | nil => exact absurd rfl hne
    | cons c cs => rfl
  simp only [process_prospect, hres, hicp, htr, hnews, hcontacts, hmsgs, hne2, hnotlt,
    hscore, Option.getD_some, if_false, Bool.false_eq_true, initResults]
  rfl

/-! ### Claim theorems -/

/-- C1: whenever the fit scorer returns a score strictly below 50, the
returned result is the initial result with exactly
`steps_completed = ["research_company", "analyze_icp"]`, the score and
reasoning recorded, `skipped = true` and
`skip_reason = "Low ICP fit score"`; by the record equality every
downstream field keeps its initial value (`contacts_identified = 0`,
`messages_generated = 0`, `emails_sent = 0`, `crm_logged = false`, no
trigger/news/message/dispatch data), and since the right-hand side does
not depend on any later collaborator, no later stage is attempted. -/
theorem low_fit_score_skips
    (C : Collaborators) (now company_name : String) (icp : IdealCustomerProfile)
    (vp : String) (website : Option String) (flag : Bool)
    (company : Company) (a : IcpAnalysis) (s : Int)
    (hres : C.research_company company_name website = .ok company)
    (hicp : C.analyze_icp_fit company icp = .ok a)
    (hscore : a.fit_score = some s) (hlt : s < 50) :
    process_prospect C now company_name icp vp website flag =
      { initResults company_name now with
        steps_completed := ["research_company", "analyze_icp"]
        icp_fit_score := some s
        icp_reasoning := some (a.reasoning.getD "")
        skipped := true
        skip_reason := some "Low ICP fit score" } := by
  simp only [process_prospect, hres, hicp, hscore, Option.getD_some, initResults]
  simp [hlt]

/-- Witness for C1 at a concrete scenario: a company scored 40 is skipped
with only research and ICP analysis recorded. -/
theorem low_fit_score_skips_witness :
    process_prospect (mkCollab 40 [fixtureContact]) "t" "Acme" fixtureIcp "vp" none false =
      { initResults "Acme" "t" with
        steps_completed := ["research_company", "analyze_icp"]
        icp_fit_score := some 40
        icp_reasoning := some "rationale"
        skipped := true
        skip_reason := some "Low ICP fit score" } :=
  low_fit_score_skips (mkCollab 40 [fixtureContact]) "t" "Acme" fixtureIcp "vp" none false
    { name := "Acme", website := none } { fit_score := some 40, reasoning := some "rationale" }
    40 rfl rfl rfl (by decide)

/-- C3: when the research collaborator raises, processing aborts at once:
the returned result is the initial dictionary with the failure as its only
error — `steps_completed` is empty (research is not recorded as
completed) and every later-stage field keeps its initial value. -/
theorem research_failure_aborts
    (C : Collaborators) (now company_name : String) (icp : IdealCustomerProfile)
    (vp : String) (website : Option String) (flag : Bool) (e : String)
    (hres : C.research_company company_name website = .error e) :
    process_prospect C now company_name icp vp website flag =
      { initResults company_name now with errors := [e] } := by
  simp only [process_prospect, hres]
  rfl

/-- Witness for C3: a researcher raising `"boom"` yields the initial
result carrying exactly that error. -/
theorem research_failure_aborts_witness :
    process_prospect failingResearchCollab "t" "Acme" fixtureIcp "vp" none false =
      { initResults "Acme" "t" with errors := ["boom"] } :=
  research_failure_aborts failingResearchCollab "t" "Acme" fixtureIcp "vp" none false "boom" rfl

/-- C5: for every result list the report aggregator's counts satisfy
`processed + skipped = total` (the claim's "free of hard-abort errors"
precondition is not even needed — the two filters partition any list). -/
theorem processed_plus_skipped_eq_total (results : List ProcessingResult) :
    processedCount results + skippedCount results = results.length := by
  induction results with
  | nil => rfl
  | cons r rest ih =>
    unfold processedCount skippedCount at ih ⊢
    cases hr : r.skipped <;> simp [List.filter_cons, hr] <;> omega

/-- C7: when the company qualifies (score at least 50) but the contact
finder returns an empty list, the result records the five completed steps,
carries exactly the error `"No contacts identified"`, is not marked
skipped, and (by the record equality) has `contacts_identified = 0`,
`messages_generated = 0`, `crm_logged = false` and no drafting, dispatch
or CRM data — those stages are never reached. -/
theorem no_contacts_terminal
    (C : Collaborators) (now company_name : String) (icp : IdealCustomerProfile)
    (vp : String) (website : Option String) (flag : Bool)
    (company : Company) (a : IcpAnalysis) (s : Int) (trigger_events news : List String)
    (hres : C.research_company company_name website = .ok company)
    (hicp : C.analyze_icp_fit company icp = .ok a)
    (hscore : a.fit_score = some s) (hge : 50 ≤ s)
    (htr : C.identify_trigger_events company = .ok trigger_events)
    (hnews : C.gather_company_news company = .ok news)
    (hcontacts : C.identify_decision_makers company icp.job_titles = .ok []) :
    process_prospect C now company_name icp vp website flag =
      { initResults company_name now with
        steps_completed := ["research_company", "analyze_icp", "identify_triggers",
          "gather_news", "identify_contacts"]
        icp_fit_score := some s
        icp_reasoning := some (a.reasoning.getD "")
        trigger_events := some trigger_events
        company_news := some news
        errors := ["No contacts identified"] } := by
  have hnotlt : ¬ (s < 50) := by omega
  simp only [process_prospect, hres, hicp, hscore, Option.getD_some, htr, hnews, hcontacts,
    hnotlt, if_false, initResults]
  rfl

/-- Witness for C7: a qualifying company whose contact finder returns the
empty list ends with exactly the `"No contacts identified"` error. -/
theorem no_contacts_terminal_witness :
    process_prospect (mkCollab 85 []) "t" "Acme" fixtureIcp "vp" none false =
      { initResults "Acme" "t" with
        steps_completed := ["research_company", "analyze_icp", "identify_triggers",
          "gather_news", "identify_contacts"]
        icp_fit_score := some 85
        icp_reasoning := some "rationale"
        trigger_events := some ["Raised Series B", "Opened Berlin office", "New CTO"]
        company_news := some ["Acme in the news"]
        errors := ["No contacts identified"] } :=
  no_contacts_terminal (mkCollab 85 []) "t" "Acme" fixtureIcp "vp" none false
    { name := "Acme", website := none } { fit_score := some 85, reasoning := some "rationale" }
    85 ["Raised Series B", "Opened Berlin office", "New CTO"] ["Acme in the news"]
    rfl rfl rfl (by decide) rfl rfl rfl

/-- C8: the batch processor returns exactly one result per entry whose
name is truthy, in input order — entries without a (nonempty) name are
silently dropped, and the function is total, so no prospect's internal
error escapes the batch or stops later prospects. -/
theorem batch_one_result_per_named_prospect (C : Collaborators) (now : String)
    (icp : IdealCustomerProfile) (vp : String) (flag : Bool) :
    ∀ prospects : List ProspectEntry,
      process_prospect_list C now icp vp flag prospects =
        (prospects.filter (fun p => !strFalsy p.name)).map
          (fun p => process_prospect C now (p.name.getD "") icp vp p.website flag) := by
  intro prospects
  induction prospects with
  | nil => rfl
  | cons p rest ih =>
    unfold process_prospect_list
    cases hp : strFalsy p.name <;> simp [List.filter_cons, hp, ih]

/-- C2: when the company qualifies (score at least 50) and the contact
finder returns a nonempty list, drafting produces exactly one message per
contact: `messages_generated` and `contacts_identified` in the returned
result both equal the contact count (whatever the dispatch and CRM stages
then do), the drafted list has that same length, and the context supplied
to every drafting call (the argument visible in `hmsgs`) is
`trigger_events.take 2` — at most the first two trigger events. -/
theorem one_message_per_contact
    (C : Collaborators) (now company_name : String) (icp : IdealCustomerProfile)
    (vp : String) (website : Option String) (flag : Bool)
    (company : Company) (a : IcpAnalysis) (s : Int) (trigger_events news : List String)
    (contacts : List Contact) (messages : List OutreachMessage)
    (hres : C.research_company company_name website = .ok company)
    (hicp : C.analyze_icp_fit company icp = .ok a)
    (hscore : a.fit_score = some s) (hge : 50 ≤ s)
    (htr : C.identify_trigger_events company = .ok trigger_events)
    (hnews : C.gather_company_news company = .ok news)
    (hcontacts : C.identify_decision_makers company icp.job_titles = .ok contacts)
    (hne : contacts ≠ [])
    (hmsgs : mapExcept (fun contact => C.generate_cold_email contact company vp
        (trigger_events.take 2)) contacts = .ok messages) :
    (process_prospect C now company_name icp vp website flag).messages_generated
        = contacts.length
      ∧ (process_prospect C now company_name icp vp website flag).contacts_identified
        = contacts.length
      ∧ messages.length = contacts.length
      ∧ (trigger_events.take 2).length ≤ 2
      ∧ trigger_events.take 2 ++ trigger_events.drop 2 = trigger_events := by
  have hlen := mapExcept_ok_length _ contacts messages hmsgs
  have hmain := process_prospect_after_drafting C now company_name icp vp website flag company a
    s trigger_events news contacts messages hres hicp hscore hge htr hnews hcontacts hne hmsgs
  refine ⟨?_, ?_, hlen, ?_, List.take_append_drop 2 trigger_events⟩
  · rw [hmain, step7and8_messages_generated]
    exact hlen
  · rw [hmain, step7and8_contacts_identified]
  · rw [List.length_take]
    exact min_le_left _ _

/-- Witness for C2: two contacts found at a qualifying company yield a
result with two generated messages. -/
theorem one_message_per_contact_witness :
    (process_prospect (mkCollab 85 [fixtureContact, fixtureContact2]) "t" "Acme" fixtureIcp
        "vp" none false).messages_generated = 2 :=
  (one_message_per_contact (mkCollab 85 [fixtureContact, fixtureContact2]) "t" "Acme"
    fixtureIcp "vp" none false { name := "Acme", website := none }
    { fit_score := some 85, reasoning := some "rationale" } 85
    ["Raised Series B", "Opened Berlin office", "New CTO"] ["Acme in the news"]
    [fixtureContact, fixtureContact2]
    [fixtureMessage fixtureContact, fixtureMessage fixtureContact2]
    rfl rfl rfl (by decide) rfl rfl rfl (by decide) rfl).1

/-- C4 counterexample: the aggregator interpolates `datetime.now()` into
the `Generated:` line, so calling it twice on the SAME (here: empty)
result list at clock readings one second apart yields different text —
the idempotence/"no hidden state" claim fails as stated. -/
theorem report_not_idempotent_counterexample :
    generate_campaign_report "2024-01-01 00:00:00" []
      ≠ generate_campaign_report "2024-01-01 00:00:01" [] := by decide

/-- C4 amended: the report is a pure function of the generation-time
reading and the result list, and the clock enters only through the single
`Generated:` interpolation — every report is the constant header, then the
timestamp, then text determined by the result list alone.  In particular,
two calls on the same list during the same formatted second (equal `now`)
yield identical text. -/
theorem report_pure_in_timestamp_and_results (now : String)
    (results : List ProcessingResult) :
    generate_campaign_report now results
      = reportGeneratedHead ++ now ++ reportAfterTimestamp results := by
  unfold generate_campaign_report reportSummary reportGeneratedHead reportAfterTimestamp
  rw [foldl_append_eq]
  simp [String.append_assoc]

/-- C6: with `send_email` false, once drafting is reached the returned
result has `emails_sent = 0`, exposes exactly the generated messages as
previews (`messages` holds one `messagePreview` — recipient name, email,
subject, body — per drafted message, in order), records no dispatch
errors, and the `send_emails` step never runs. -/
theorem demo_mode_stages_messages
    (C : Collaborators) (now company_name : String) (icp : IdealCustomerProfile)
    (vp : String) (website : Option String)
    (company : Company) (a : IcpAnalysis) (s : Int) (trigger_events news : List String)
    (contacts : List Contact) (messages : List OutreachMessage)
    (hres : C.research_company company_name website = .ok company)
    (hicp : C.analyze_icp_fit company icp = .ok a)
    (hscore : a.fit_score = some s) (hge : 50 ≤ s)
    (htr : C.identify_trigger_events company = .ok trigger_events)
    (hnews : C.gather_company_news company = .ok news)
    (hcontacts : C.identify_decision_makers company icp.job_titles = .ok contacts)
    (hne : contacts ≠ [])
    (hmsgs : mapExcept (fun contact => C.generate_cold_email contact company vp
        (trigger_events.take 2)) contacts = .ok messages) :
    (process_prospect C now company_name icp vp website false).emails_sent = 0
      ∧ (process_prospect C now company_name icp vp website false).messages
          = some (messages.map messagePreview)
      ∧ (messages.map messagePreview).length
          = (process_prospect C now company_name icp vp website false).messages_generated
      ∧ (process_prospect C now company_name icp vp website false).email_errors = none
      ∧ "send_emails"
          ∉ (process_prospect C now company_name icp vp website false).steps_completed := by
  have hmain := process_prospect_after_drafting C now company_name icp vp website false company
    a s trigger_events news contacts messages hres hicp hscore hge htr hnews hcontacts hne hmsgs
  rw [hmain]
  refine ⟨?_, ?_, ?_, ?_, ?_⟩
  · rw [step7and8_false_emails_sent]
    exact rfl
  · rw [step7and8_false_messages]
  · rw [step7and8_messages_generated]
    simp only [List.length_map]
  · rw [step7and8_false_email_errors]
    exact rfl
  · rcases step7and8_false_steps C company contacts messages
      { initResults company_name now with
        steps_completed := ["research_company", "analyze_icp", "identify_triggers",
          "gather_news", "identify_contacts", "generate_messages"]
        icp_fit_score := some s
        icp_reasoning := some (a.reasoning.getD "")
        trigger_events := some trigger_events
        company_news := some news
        contacts_identified := contacts.length
        messages_generated := messages.length } with h | h
    · rw [h]
      show "send_emails" ∉ ["research_company", "analyze_icp", "identify_triggers",
        "gather_news", "identify_contacts", "generate_messages"]
      decide
    · rw [h]
      show "send_emails" ∉ ["research_company", "analyze_icp", "identify_triggers",
        "gather_news", "identify_contacts", "generate_messages"] ++ ["log_crm"]
      decide

/-- Witness for C6: in demo mode the concrete run sends nothing and
exposes one preview for its one generated message. -/
theorem demo_mode_stages_messages_witness :
    (process_prospect (mkCollab 85 [fixtureContact]) "t" "Acme" fixtureIcp "vp" none
        false).emails_sent = 0 :=
  (demo_mode_stages_messages (mkCollab 85 [fixtureContact]) "t" "Acme" fixtureIcp "vp" none
    { name := "Acme", website := none } { fit_score := some 85, reasoning := some "rationale" }
    85 ["Raised Series B", "Opened Berlin office", "New CTO"] ["Acme in the news"]
    [fixtureContact] [fixtureMessage fixtureContact]
    rfl rfl rfl (by decide) rfl rfl rfl (by decide) rfl).1

/-- C9 counterexample: in demo mode (no SendGrid client) `send_email`
returns `True` even for a message whose contact has no email address —
dispatch does not fail closed for that message as claimed; it counts as
sent in a bulk send. -/
theorem demo_mode_sends_without_email_counterexample :
    strFalsy noEmailMessage.contact.email = true
      ∧ send_email demoEmailState noEmailMessage = true
      ∧ (send_bulk_emails demoEmailState [noEmailMessage]).sent = 1
      ∧ (send_bulk_emails demoEmailState [noEmailMessage]).failed = 0 := by decide

/-- C9 amended: when the SendGrid client is connected, an email-channel
message whose contact has no email address fails closed — `send_email`
returns `false` and the message counts as failed — and no single failure
aborts the bulk send: every message of the batch is attempted and counted
(`sent + failed` equals the batch size, and `sent` counts exactly the
messages whose individual send succeeds).  In demo mode (no client) the
code instead treats every message, even one without an address, as sent. -/
theorem live_dispatch_fails_closed (outcome : OutreachMessage → Bool)
    (messages : List OutreachMessage) (m : OutreachMessage)
    (_hm : m ∈ messages) (hfalsy : strFalsy m.contact.email = true) :
    send_email { sg := true, sendOutcome := outcome } m = false
      ∧ (send_bulk_emails { sg := true, sendOutcome := outcome } messages).sent
          + (send_bulk_emails { sg := true, sendOutcome := outcome } messages).failed
          = messages.length
      ∧ (send_bulk_emails { sg := true, sendOutcome := outcome } messages).sent
          = (messages.filter (fun x =>
              send_email { sg := true, sendOutcome := outcome } x)).length := by
  refine ⟨?_, ?_, ?_⟩
  · simp [send_email, hfalsy]
  · simpa using send_bulk_from_counts { sg := true, sendOutcome := outcome } messages
      { sent := 0, failed := 0, errors := [] }
  · simpa using send_bulk_from_sent { sg := true, sendOutcome := outcome } messages
      { sent := 0, failed := 0, errors := [] }

/-- Witness for C9 (amended): with a live client, the no-email message of
a two-message batch is refused while the batch completes. -/
theorem live_dispatch_fails_closed_witness :
    send_email { sg := true, sendOutcome := fun _ => true } noEmailMessage = false :=
  (live_dispatch_fails_closed (fun _ => true) [noEmailMessage, fixtureMessage fixtureContact]
    noEmailMessage (by decide) rfl).1

/-- C10: `create_activity_log` substitutes the literal `"unknown"` for a
falsy contact email, and constructing the resulting `CRMActivity` raises
the validation error `Invalid email format: unknown` (first conjunct).
Consequently, when CRM logging in `process_prospect` reaches such a
contact — one drafted message per contact (`hpreserve`), every present
contact email well-formed (`hvalid`, the pydantic invariant), either CRM
back end active — the outer handler catches the error: `crm_logged` stays
`false`, the error text lands in the result's error list, and the
`log_crm` step is never recorded. -/
theorem unknown_email_breaks_crm_logging
    (C : Collaborators) (now company_name : String) (icp : IdealCustomerProfile)
    (vp : String) (website : Option String) (flag : Bool)
    (company : Company) (a : IcpAnalysis) (s : Int) (trigger_events news : List String)
    (contacts : List Contact) (messages : List OutreachMessage)
    (hres : C.research_company company_name website = .ok company)
    (hicp : C.analyze_icp_fit company icp = .ok a)
    (hscore : a.fit_score = some s) (hge : 50 ≤ s)
    (htr : C.identify_trigger_events company = .ok trigger_events)
    (hnews : C.gather_company_news company = .ok news)
    (hcontacts : C.identify_decision_makers company icp.job_titles = .ok contacts)
    (hne : contacts ≠ [])
    (hmsgs : mapExcept (fun contact => C.generate_cold_email contact company vp
        (trigger_events.take 2)) contacts = .ok messages)
    (hcrm : C.crm_type = "salesforce" ∨ C.crm_type = "hubspot")
    (hpreserve : messages.map (fun m => m.contact) = contacts)
    (hvalid : ∀ c ∈ contacts, strFalsy c.email = true ∨ contactEmailOk c)
    (hbad : ∃ c ∈ contacts, strFalsy c.email = true) :
    (∀ (msg : OutreachMessage) (status : String), strFalsy msg.contact.email = true →
        create_activity_log msg status = .error "Invalid email format: unknown")
      ∧ (process_prospect C now company_name icp vp website flag).crm_logged = false
      ∧ "Invalid email format: unknown"
          ∈ (process_prospect C now company_name icp vp website flag).errors
      ∧ "log_crm" ∉ (process_prospect C now company_name icp vp website flag).steps_completed := by
  have hmatch : ∀ c ∈ contacts, strFalsy c.email = true →
      ∃ m ∈ messages, m.contact.email = c.email := by
    intro c hc _
    rw [← hpreserve] at hc
    obtain ⟨m, hm, hmc⟩ := List.mem_map.mp hc
    exact ⟨m, hm, by rw [hmc]⟩
  have hloop := crmLoop_error_of_bad_contact C (companyInfoOf company) messages hcrm contacts
    hvalid hmatch hbad
  have hmain := process_prospect_after_drafting C now company_name icp vp website flag company
    a s trigger_events news contacts messages hres hicp hscore hge htr hnews hcontacts hne hmsgs
  obtain ⟨h1, h2, h3⟩ := step7and8_loop_error C flag company contacts messages
    { initResults company_name now with
      steps_completed := ["research_company", "analyze_icp", "identify_triggers",
        "gather_news", "identify_contacts", "generate_messages"]
      icp_fit_score := some s
      icp_reasoning := some (a.reasoning.getD "")
      trigger_events := some trigger_events
      company_news := some news
      contacts_identified := contacts.length
      messages_generated := messages.length }
    "Invalid email format: unknown" hloop
  refine ⟨fun msg status h => create_activity_log_falsy msg status h, ?_, ?_, ?_⟩
  · rw [hmain, h1]
    exact rfl
  · rw [hmain, h2]
    show "Invalid email format: unknown" ∈ [] ++ ["Invalid email format: unknown"]
    decide
  · rw [hmain, h3]
    cases flag
    · show "log_crm" ∉ ["research_company", "analyze_icp", "identify_triggers",
        "gather_news", "identify_contacts", "generate_messages"] ++ []
      decide
    · show "log_crm" ∉ ["research_company", "analyze_icp", "identify_triggers",
        "gather_news", "identify_contacts", "generate_messages"] ++ ["send_emails"]
      decide

/-- Witness for C10: with one well-formed contact and one contact lacking
an email, CRM logging aborts and `crm_logged` stays false. -/
theorem unknown_email_breaks_crm_logging_witness :
    (process_prospect (mkCollab 85 [fixtureContact, noEmailContact]) "t" "Acme" fixtureIcp
        "vp" none false).crm_logged = false :=
  (unknown_email_breaks_crm_logging (mkCollab 85 [fixtureContact, noEmailContact]) "t" "Acme"
    fixtureIcp "vp" none false { name := "Acme", website := none }
    { fit_score := some 85, reasoning := some "rationale" } 85
    ["Raised Series B", "Opened Berlin office", "New CTO"] ["Acme in the news"]
    [fixtureContact, noEmailContact]
    [fixtureMessage fixtureContact, fixtureMessage noEmailContact]
    rfl rfl rfl (by decide) rfl rfl rfl (by decide) rfl (Or.inl rfl) rfl
    (by
      intro c hc
      simp only [List.mem_cons, List.not_mem_nil, or_false] at hc
      rcases hc with rfl | rfl
      · right
        exact ⟨"jane.doe@example.com", rfl, by decide, by decide⟩
      · left
        rfl)
    ⟨noEmailContact, by decide, rfl⟩).2.1

end SdrAgent
